import Mathlib

/-!
Shallow embedding of the framebuffer visualizer
(`melvin_visualizer_fb.py`) of the Melvin_Graph repository, together with
theorems settling the spec claims about it.

Conventions of the embedding:
* Python floats are modelled as exact rationals (`ℚ`); the numeric claims
  concern the update formulas, not float rounding.
* Python `int()` truncation toward zero is `pyInt`.
* Fallible operations (division, OS calls) return `Option`/`Except`; `none`
  or `.error` models a raised Python exception.
-/

namespace Melvin

/-- Python `int()` applied to a rational: truncation toward zero. -/
def pyInt (q : ℚ) : ℤ := if 0 ≤ q then ⌊q⌋ else ⌈q⌉

/-- The `GraphNode` dataclass (id, position, activation, brightness,
pulse_timer), with the dataclass defaults. -/
structure GraphNode where
  id : ℤ
  x : ℚ
  y : ℚ
  z : ℚ
  activation : ℚ := 0
  brightness : ℚ := 0
  pulse_timer : ℚ := 0
deriving Repr, DecidableEq

/-- The brightness line of `update_nodes`:
`node.brightness += (node.activation - node.brightness) * 0.15`. -/
def brightnessStep (activation b : ℚ) : ℚ :=
  b + (activation - b) * (15 / 100)

/-- Iterating the brightness smoothing step with a fixed activation. -/
def brightnessIter (a b : ℚ) : ℕ → ℚ
  | 0 => b
  | n + 1 => brightnessStep a (brightnessIter a b n)

/-- The per-node body of `MelvinVisualizerFB.update_nodes`: smooth the
brightness toward the activation, and decrement `pulse_timer` by
`delta_time` only when it is currently positive (the source has no clamp:
`if node.pulse_timer > 0: node.pulse_timer -= delta_time`). -/
def update_node (dt : ℚ) (n : GraphNode) : GraphNode :=
  { n with
    brightness := brightnessStep n.activation n.brightness
    pulse_timer := if n.pulse_timer > 0 then n.pulse_timer - dt else n.pulse_timer }

/-- View-space depth of a node at camera rotation `(cos_t, sin_t)`: the
denominator `distance + z_rot` of the perspective formula in
`project_node`, i.e. the node's distance from the camera along the view
axis (`z_rot = x * sin_t + z * cos_t`, `distance = 3`). -/
def viewDepth (cos_t sin_t : ℚ) (n : GraphNode) : ℚ :=
  3 + (n.x * sin_t + n.z * cos_t)

/-- `MelvinVisualizerFB.project_node`. The camera rotation enters through
`cos_t = cos(camera_theta)` and `sin_t = sin(camera_theta)`, passed as
exact rationals. In the source, `x_rot = x*cos_t - z*sin_t`,
`z_rot = x*sin_t + z*cos_t`, `distance = 3.0`,
`scale = distance / (distance + z_rot)`,
`screen_x = int(width/2 + x_rot*scale*width/4)`,
`screen_y = int(height/2 - y*scale*height/3)`. Returns `none` when
`distance + z_rot = 0`, modelling the `ZeroDivisionError` raised by the
scale division (the source performs the division unguarded). -/
def project_node (cos_t sin_t : ℚ) (n : GraphNode) (width height : ℚ) :
    Option (ℤ × ℤ × ℚ) :=
  if 3 + (n.x * sin_t + n.z * cos_t) = 0 then none
  else
    some
      (pyInt (width / 2 +
        (n.x * cos_t - n.z * sin_t) * (3 / (3 + (n.x * sin_t + n.z * cos_t))) * width / 4),
      pyInt (height / 2 - n.y * (3 / (3 + (n.x * sin_t + n.z * cos_t))) * height / 3),
      3 / (3 + (n.x * sin_t + n.z * cos_t)))

/-- The per-node body of the draw loop in `render_graph`: project, offset
into the panel at `(px, py)`, and `continue` (skip) when `scale < 0` or
the screen point falls outside the panel rectangle. `none` models an
uncaught exception bubbling out of `project_node`; `some true` means the
node is drawn; `some false` means it is skipped. -/
def drawStep (cos_t sin_t : ℚ) (px py w h : ℤ) (n : GraphNode) : Option Bool :=
  match project_node cos_t sin_t n (w : ℚ) (h : ℚ) with
  | none => none
  | some (sx, sy, scale) =>
    if scale < 0 ∨ sx + px < px ∨ sy + py < py ∨ sx + px ≥ px + w ∨ sy + py ≥ py + h
      then some false else some true

/-- Stable insertion into a list sorted by ascending `z`. -/
def insertByZ (n : GraphNode) : List GraphNode → List GraphNode
  | [] => [n]
  | m :: ms => if n.z ≤ m.z then n :: m :: ms else m :: insertByZ n ms

/-- The node draw order of `render_graph`:
`sorted(self.nodes.values(), key=lambda n: n.z)` — a stable ascending sort
on world `z`, realised here as stable insertion sort. -/
def sortNodesByZ : List GraphNode → List GraphNode
  | [] => []
  | n :: ns => insertByZ n (sortNodesByZ ns)

/-- A node at the north pole of the unit sphere (world `z = 1`). -/
def nodePosZ : GraphNode := { id := 0, x := 0, y := 0, z := 1 }

/-- A node at the south pole of the unit sphere (world `z = -1`). -/
def nodeNegZ : GraphNode := { id := 1, x := 0, y := 0, z := -1 }

/-- A concrete frame state with the two pole nodes. -/
def demoPair : List GraphNode := [nodePosZ, nodeNegZ]

/-- An RGB colour triple `(r, g, b)`, one byte each. -/
abbrev Color := ℕ × ℕ × ℕ

/-- `struct.pack('BBBB', b, g, r, 255)`: the 4 bytes written per pixel. -/
def packPixel (c : Color) : List ℕ := [c.2.2, c.2.1, c.1, 255]

/-- `FramebufferDisplay.clear(color)`: seeks to offset 0 of the mapped
buffer and writes `width * height` packed pixels consecutively
(`for _ in range(self.info.width * self.info.height)`). The source never
consults `line_length` (the row stride) here, so the bytes land at
consecutive offsets `(y * width + x) * 4`, not at `y * stride + x * 4`;
bytes past `4 * width * height` keep their previous contents. -/
def fb_clear (width height : ℕ) (c : Color) (buf : List ℕ) : List ℕ :=
  (List.replicate (width * height) (packPixel c)).flatten
    ++ buf.drop (4 * (width * height))

/-- Python-level errors arising in the double-close scenario. -/
inductive PyError
  | valueError
  | osError
deriving Repr, DecidableEq

/-- The OS table of open file descriptors. -/
structure OSState where
  openFds : List ℤ
deriving Repr, DecidableEq

/-- `os.close(fd)`: removes the descriptor from the open table, or raises
`OSError` (EBADF) when it is not open. -/
def osClose (s : OSState) (fd : ℤ) : Except PyError OSState :=
  if fd ∈ s.openFds then .ok ⟨s.openFds.erase fd⟩ else .error .osError

/-- The mutable fields of `FramebufferDisplay` relevant to `close()`:
`fb_fd` is `None` until `open()` succeeds, then the descriptor; `fb_mem`
is `None` until `open()` succeeds, then `some b` where `b` records
whether the mmap is still open. -/
structure FBHandle where
  fb_fd : Option ℤ
  fb_mem : Option Bool
deriving Repr, DecidableEq

/-- Python truthiness of `self.fb_mem`: `None` is falsy; for an mmap
object, `bool()` falls back to `len()`, which returns the positive mapped
size for an open map and raises `ValueError: mmap closed or invalid` for
a closed one (verified against CPython). -/
def memTruthy : Option Bool → Except PyError Bool
  | none => .ok false
  | some true => .ok true
  | some false => .error .valueError

/-- The second half of `FramebufferDisplay.close()`:
`if self.fb_fd: os.close(self.fb_fd)` (Python truthiness: `None` and the
descriptor `0` are falsy). -/
def fbCloseFd (s : OSState) (h : FBHandle) : Except PyError (OSState × FBHandle) :=
  match h.fb_fd with
  | none => .ok (s, h)
  | some fd =>
    if fd ≠ 0 then
      match osClose s fd with
      | .error e => .error e
      | .ok s1 => .ok (s1, h)
    else .ok (s, h)

/-- `FramebufferDisplay.close()`:
`if self.fb_mem: self.fb_mem.close()` then
`if self.fb_fd: os.close(self.fb_fd)`. Neither field is reset to `None`. -/
def fb_close (s : OSState) (h : FBHandle) : Except PyError (OSState × FBHandle) :=
  match memTruthy h.fb_mem with
  | .error e => .error e
  | .ok memT => fbCloseFd s (if memT then { h with fb_mem := some false } else h)

/-- Observable events of the `run`/`main` control-flow model. -/
inductive RunEvent
  | printDiag
  | renderFrame
  | closeDevice
deriving Repr, DecidableEq

/-- `MelvinVisualizerFB.run` plus `main`, as a trace of observable events
and the process exit status. `openOk` says whether
`FramebufferDisplay.open()` succeeds (`open()` catches any failure
internally, prints a diagnostic, and returns `False`); `frames` is the
number of loop iterations completed before the `KeyboardInterrupt`.
On open failure, `run` prints `"Failed to open framebuffer!"` and
returns; on interrupt, the handler prints and the `finally` block closes
the device. In both cases `main()` returns normally — there is no
`sys.exit` anywhere — so the interpreter exits with status 0. -/
def runMain (openOk : Bool) (frames : ℕ) : List RunEvent × ℕ :=
  if openOk then
    (List.replicate frames .renderFrame ++ [.closeDevice], 0)
  else
    ([.printDiag], 0)

/-- A `"metric"` telemetry record as read with `event.get(key, default)`:
`none` models an absent key. `gpu` and `ram` are carried on the wire but,
as the C10 theorem shows, never read by `process_events`. -/
structure MetricEvent where
  cpu : Option ℚ := none
  tick_rate : Option ℚ := none
  active_nodes : Option ℤ := none
  total_edges : Option ℤ := none
  mean_error : Option ℚ := none
  status : Option String := none
  gpu : Option ℚ := none
  ram : Option ℚ := none
deriving Repr, DecidableEq

/-- The `SystemMetrics` dataclass with its defaults. -/
structure SystemMetrics where
  cpu_usage : ℚ := 0
  gpu_usage : ℚ := 0
  ram_usage : ℚ := 0
  tick_rate : ℚ := 0
  active_nodes : ℤ := 0
  total_edges : ℤ := 0
  mean_error : ℚ := 0
  status : String := "IDLE"
deriving Repr, DecidableEq

/-- The `"metric"` branch of `MelvinVisualizerFB.process_events`:
`self.metrics = SystemMetrics(cpu_usage=event.get("cpu", 0), ...)`.
The previous snapshot does not appear on the right-hand side, and the
constructor receives only the six listed fields, so `gpu_usage` and
`ram_usage` take their dataclass defaults (0). -/
def process_metric_event (_old : SystemMetrics) (e : MetricEvent) : SystemMetrics :=
  { cpu_usage := e.cpu.getD 0
    tick_rate := e.tick_rate.getD 0
    active_nodes := e.active_nodes.getD 0
    total_edges := e.total_edges.getD 0
    mean_error := e.mean_error.getD 0
    status := e.status.getD "IDLE" }

/-- One decoded telemetry record, as enqueued by the ingestion worker. -/
inductive WireEvent
  | log (timestamp : ℚ) (context : String) (kind : String) (text : String)
  | graphUpdate (node_id : ℤ) (activation : ℚ)
  | metric (m : MetricEvent)
deriving Repr, DecidableEq

/-- Observable actions of the ingestion worker
(`connect_to_socket` / `_run_demo_mode`). -/
inductive WorkerAction
  | connectAttempt
  | enqueue (e : WireEvent)
  | sleepRetry
  | sleepDemo
  | closeSocket
  | fallbackToDemo
deriving Repr, DecidableEq

/-- Outcome of one `sock.recv(4096)` call: `ok lines` is a nonempty chunk
whose newline-split lines each either decode to an event (`some`) or are
malformed (`none`; the `except json.JSONDecodeError: pass` drops them);
`closed` is the empty result `b''` (peer end-of-stream), which triggers
`break`; `fail` is a raised exception, handled by the inner `except`
(sleep 1 and continue). The newline split and JSON decode are Python
library calls, abstracted to their per-line outcome. -/
inductive RecvResult
  | ok (lines : List (Option WireEvent))
  | closed
  | fail
deriving Repr, DecidableEq

/-- The enqueue actions produced by one decoded chunk. -/
def enqueueLines (lines : List (Option WireEvent)) : List WorkerAction :=
  lines.filterMap (fun o => o.map WorkerAction.enqueue)

/-- The `while self.running:` read loop of `connect_to_socket` after a
successful connection. An exhausted input list models `self.running`
becoming false; `closed` triggers `break`; both loop exits fall through
to `sock.close()`. -/
def socketLoop : List RecvResult → List WorkerAction
  | [] => [.closeSocket]
  | .ok lines :: rest => enqueueLines lines ++ socketLoop rest
  | .closed :: _ => [.closeSocket]
  | .fail :: rest => .sleepRetry :: socketLoop rest

/-- The actions of the read loop over reads that include no end-of-stream
(used to state what `socketLoop` does up to the `closed` read). -/
def readActions : List RecvResult → List WorkerAction
  | [] => []
  | .ok lines :: rest => enqueueLines lines ++ readActions rest
  | .closed :: rest => readActions rest
  | .fail :: rest => .sleepRetry :: readActions rest

/-- The random draws of one `_run_demo_mode` iteration. -/
structure DemoChoice where
  timestamp : ℚ
  kindIx : ℕ
  msgIx : ℕ
  nodeId : ℤ
  activation : ℚ
  emitMetric : Bool
  metricPayload : MetricEvent
deriving Repr, DecidableEq

/-- The fixed demo phrase set of `_run_demo_mode`. -/
def demoMessages : List String :=
  ["Analyzing visual input", "Processing sensory data", "Updating neural weights",
    "Context shift: environment", "Motor planning active", "Prediction computed",
    "Learning adaptation", "Attention reoriented", "Memory consolidation",
    "Pattern recognized"]

/-- The fixed demo event kinds of `_run_demo_mode`. -/
def demoKinds : List String := ["thought", "perception", "learning", "context"]

/-- One iteration of the `while self.running:` loop of `_run_demo_mode`:
sleep, enqueue a log event and a graph update, and — when the 0.3
probability draw fires (`emitMetric`) — a metric event. -/
def demoIter (c : DemoChoice) : List WorkerAction :=
  .sleepDemo ::
    .enqueue (.log c.timestamp "main" (demoKinds.getD c.kindIx "thought")
      (demoMessages.getD c.msgIx "")) ::
    .enqueue (.graphUpdate c.nodeId c.activation) ::
    (if c.emitMetric then [.enqueue (.metric c.metricPayload)] else [])

/-- `MelvinVisualizerFB._run_demo_mode`: loops while `self.running`; the
choice list carries the random draws of the iterations run before
shutdown. -/
def run_demo_mode : List DemoChoice → List WorkerAction
  | [] => []
  | c :: cs => demoIter c ++ run_demo_mode cs

/-- `MelvinVisualizerFB.connect_to_socket`: one connection attempt to
`/tmp/melvin_feed.sock`; on success the read loop runs; on any connect
failure the single outer `except` falls through to `_run_demo_mode()` —
the real endpoint is never attempted again. -/
def connect_to_socket (connectOk : Bool) (reads : List RecvResult)
    (demo : List DemoChoice) : List WorkerAction :=
  .connectAttempt ::
    (if connectOk then socketLoop reads else .fallbackToDemo :: run_demo_mode demo)

end Melvin

namespace Melvin

theorem brightnessStep_mem_Icc {a b : ℚ} (ha0 : 0 ≤ a) (ha1 : a ≤ 1)
    (hb0 : 0 ≤ b) (hb1 : b ≤ 1) :
    0 ≤ brightnessStep a b ∧ brightnessStep a b ≤ 1 := by
  unfold brightnessStep
  constructor <;> nlinarith

theorem brightnessIter_mem_Icc {a b : ℚ} (ha0 : 0 ≤ a) (ha1 : a ≤ 1)
    (hb0 : 0 ≤ b) (hb1 : b ≤ 1) (n : ℕ) :
    0 ≤ brightnessIter a b n ∧ brightnessIter a b n ≤ 1 := by
  induction n with
  | zero => exact ⟨hb0, hb1⟩
  | succ k ih => exact brightnessStep_mem_Icc ha0 ha1 ih.1 ih.2

theorem brightnessStep_between (a b : ℚ) :
    min b a ≤ brightnessStep a b ∧ brightnessStep a b ≤ max b a := by
  unfold brightnessStep
  rcases le_total a b with h | h
  · rw [min_eq_right h, max_eq_left h]
    constructor <;> nlinarith
  · rw [min_eq_left h, max_eq_right h]
    constructor <;> nlinarith

theorem brightnessStep_contracts (a b : ℚ) :
    |a - brightnessStep a b| ≤ |a - b| := by
  have hrw : a - brightnessStep a b = (17 / 20) * (a - b) := by
    unfold brightnessStep; ring
  rw [hrw, abs_mul]
  have h1 : |(17 / 20 : ℚ)| = 17 / 20 := by norm_num
  rw [h1]
  nlinarith [abs_nonneg (a - b)]

/-- C7: for activation and initial brightness in `[0,1]`, every iterate of
`brightness += (activation - brightness) * 0.15` stays in `[0,1]`, each new
value lies in the closed interval spanned by the previous value and the
activation (no overshoot), and the distance to the activation never
increases (monotone approach). -/
theorem C7_brightness_smoothing (a b : ℚ) (n : ℕ)
    (ha0 : 0 ≤ a) (ha1 : a ≤ 1) (hb0 : 0 ≤ b) (hb1 : b ≤ 1) :
    (0 ≤ brightnessIter a b n ∧ brightnessIter a b n ≤ 1) ∧
    min (brightnessIter a b n) a ≤ brightnessIter a b (n + 1) ∧
    brightnessIter a b (n + 1) ≤ max (brightnessIter a b n) a ∧
    |a - brightnessIter a b (n + 1)| ≤ |a - brightnessIter a b n| := by
  refine ⟨brightnessIter_mem_Icc ha0 ha1 hb0 hb1 n, ?_, ?_, ?_⟩
  · exact (brightnessStep_between a (brightnessIter a b n)).1
  · exact (brightnessStep_between a (brightnessIter a b n)).2
  · exact brightnessStep_contracts a (brightnessIter a b n)

/-- Witness for C7 at activation `1/2`, initial brightness `0`, step `1`. -/
theorem C7_brightness_smoothing_witness :
    (0 ≤ (1 / 2 : ℚ) ∧ (1 / 2 : ℚ) ≤ 1 ∧ 0 ≤ (0 : ℚ) ∧ (0 : ℚ) ≤ 1) ∧
    ((0 ≤ brightnessIter (1 / 2) 0 1 ∧ brightnessIter (1 / 2) 0 1 ≤ 1) ∧
      min (brightnessIter (1 / 2) 0 1) (1 / 2) ≤ brightnessIter (1 / 2) 0 (1 + 1) ∧
      brightnessIter (1 / 2) 0 (1 + 1) ≤ max (brightnessIter (1 / 2) 0 1) (1 / 2) ∧
      |1 / 2 - brightnessIter (1 / 2) 0 (1 + 1)| ≤ |1 / 2 - brightnessIter (1 / 2) 0 1|) :=
  ⟨⟨by norm_num, by norm_num, le_refl 0, by norm_num⟩,
    C7_brightness_smoothing (1 / 2) 0 1 (by norm_num) (by norm_num) (le_refl 0) (by norm_num)⟩

/-- C2 counterexample: a node with `pulse_timer = 0.1` updated with
`delta_time = 0.2` ends with `pulse_timer = -0.1`, not
`max 0 (0.1 - 0.2) = 0`: the source decrements without clamping. -/
theorem C2_counterexample :
    (update_node (2 / 10)
        { id := 0, x := 0, y := 0, z := 0, pulse_timer := 1 / 10 }).pulse_timer
      = -(1 / 10) ∧
    ¬ (update_node (2 / 10)
        { id := 0, x := 0, y := 0, z := 0, pulse_timer := 1 / 10 }).pulse_timer
      = max 0 ((1 / 10 : ℚ) - 2 / 10) := by
  constructor
  · norm_num [update_node]
  · rw [max_eq_left (by norm_num)]
    norm_num [update_node]

/-- C2 amended: after `update_nodes`, `pulse_timer` equals the previous
value minus `delta_time` when the previous value was positive, and is left
unchanged otherwise; hence it equals `max 0 (prev - dt)` exactly when
`prev = 0` or `dt ≤ prev`, and becomes the negative value `prev - dt`
whenever `0 < prev < dt`. -/
theorem C2_pulse_timer_amended (n : GraphNode) (dt : ℚ)
    (hp : 0 ≤ n.pulse_timer) (hd : 0 ≤ dt) :
    ((n.pulse_timer = 0 ∨ dt ≤ n.pulse_timer) →
      (update_node dt n).pulse_timer = max 0 (n.pulse_timer - dt)) ∧
    (0 < n.pulse_timer → n.pulse_timer < dt →
      (update_node dt n).pulse_timer = n.pulse_timer - dt ∧
      (update_node dt n).pulse_timer < 0) := by
  have hupd : (update_node dt n).pulse_timer
      = if n.pulse_timer > 0 then n.pulse_timer - dt else n.pulse_timer := rfl
  constructor
  · rintro (h0 | hle)
    · rw [hupd, h0, if_neg (lt_irrefl (0 : ℚ)), zero_sub,
        max_eq_left (neg_nonpos.mpr hd)]
    · rcases lt_or_eq_of_le hp with hpos | hz
      · rw [hupd, if_pos hpos, max_eq_right (by linarith : (0 : ℚ) ≤ n.pulse_timer - dt)]
      · rw [hupd, ← hz, if_neg (lt_irrefl (0 : ℚ)), zero_sub,
          max_eq_left (neg_nonpos.mpr hd)]
  · intro hpos hlt
    rw [hupd, if_pos hpos]
    exact ⟨rfl, by linarith⟩

/-- Witness for C2 amended: node with `pulse_timer = 1/2`, `dt = 1/5`. -/
theorem C2_pulse_timer_amended_witness :
    (0 ≤ ({ id := 0, x := 0, y := 0, z := 0, pulse_timer := 1 / 2 } : GraphNode).pulse_timer ∧
      0 ≤ (1 / 5 : ℚ)) ∧
    ((({ id := 0, x := 0, y := 0, z := 0, pulse_timer := 1 / 2 } : GraphNode).pulse_timer = 0 ∨
        (1 / 5 : ℚ) ≤ ({ id := 0, x := 0, y := 0, z := 0, pulse_timer := 1 / 2 } : GraphNode).pulse_timer) →
      (update_node (1 / 5)
          { id := 0, x := 0, y := 0, z := 0, pulse_timer := 1 / 2 }).pulse_timer
        = max 0 (({ id := 0, x := 0, y := 0, z := 0, pulse_timer := 1 / 2 } : GraphNode).pulse_timer - 1 / 5)) ∧
    (0 < ({ id := 0, x := 0, y := 0, z := 0, pulse_timer := 1 / 2 } : GraphNode).pulse_timer →
      ({ id := 0, x := 0, y := 0, z := 0, pulse_timer := 1 / 2 } : GraphNode).pulse_timer < 1 / 5 →
      (update_node (1 / 5)
          { id := 0, x := 0, y := 0, z := 0, pulse_timer := 1 / 2 }).pulse_timer
        = ({ id := 0, x := 0, y := 0, z := 0, pulse_timer := 1 / 2 } : GraphNode).pulse_timer - 1 / 5 ∧
      (update_node (1 / 5)
          { id := 0, x := 0, y := 0, z := 0, pulse_timer := 1 / 2 }).pulse_timer < 0) :=
  ⟨⟨by norm_num, by norm_num⟩,
    C2_pulse_timer_amended { id := 0, x := 0, y := 0, z := 0, pulse_timer := 1 / 2 } (1 / 5)
      (by norm_num) (by norm_num)⟩

theorem mem_insertByZ {x n : GraphNode} {l : List GraphNode}
    (hx : x ∈ insertByZ n l) : x = n ∨ x ∈ l := by
  induction l with
  | nil =>
    rw [insertByZ] at hx
    exact Or.inl (List.mem_singleton.mp hx)
  | cons m ms ih =>
    rw [insertByZ] at hx
    by_cases h : n.z ≤ m.z
    · rw [if_pos h] at hx
      simp only [List.mem_cons] at hx ⊢
      tauto
    · rw [if_neg h] at hx
      simp only [List.mem_cons] at hx ⊢
      rcases hx with h1 | h1
      · tauto
      · rcases ih h1 with h2 | h2 <;> tauto

theorem pairwise_insertByZ {n : GraphNode} {l : List GraphNode}
    (hl : l.Pairwise (fun a b => a.z ≤ b.z)) :
    (insertByZ n l).Pairwise (fun a b => a.z ≤ b.z) := by
  induction l with
  | nil =>
    rw [insertByZ]
    exact List.pairwise_singleton _ _
  | cons m ms ih =>
    rw [List.pairwise_cons] at hl
    by_cases h : n.z ≤ m.z
    · rw [insertByZ, if_pos h]
      refine List.Pairwise.cons ?_ (List.Pairwise.cons hl.1 hl.2)
      intro b hb
      rcases List.mem_cons.mp hb with rfl | hb2
      · exact h
      · exact le_trans h (hl.1 b hb2)
    · rw [insertByZ, if_neg h]
      refine List.Pairwise.cons ?_ (ih hl.2)
      intro b hb
      rcases mem_insertByZ hb with rfl | hb2
      · exact le_of_not_le h
      · exact hl.1 b hb2

theorem pairwise_sortNodesByZ (l : List GraphNode) :
    (sortNodesByZ l).Pairwise (fun a b => a.z ≤ b.z) := by
  induction l with
  | nil =>
    rw [sortNodesByZ]
    exact List.Pairwise.nil
  | cons n ns ih =>
    rw [sortNodesByZ]
    exact pairwise_insertByZ ih

/-- C1 counterexample: at camera angle 0 (`cos_t = 1`, `sin_t = 0`) the
draw order of `render_graph` on the two pole nodes is `[z = -1, z = 1]`
(ascending world z), and the node drawn later (`z = 1`) has view-space
depth 4, strictly greater than the depth 2 of the node drawn earlier:
drawing is front-to-back, not back-to-front, so the claim's
"later depth ≤ earlier depth" fails. -/
theorem C1_counterexample :
    sortNodesByZ demoPair = [nodeNegZ, nodePosZ] ∧
    ¬ viewDepth 1 0 nodePosZ ≤ viewDepth 1 0 nodeNegZ := by
  constructor
  · decide
  · norm_num [viewDepth, nodePosZ, nodeNegZ]

/-- C1 amended: `render_graph` draws the nodes in nondecreasing world-`z`
order, and with camera angle 0 this is front-to-back: any node drawn
later has a greater-or-equal (not smaller-or-equal) view-space depth, so
farther nodes overwrite nearer ones at overlapping pixels. -/
theorem C1_draw_order_amended (l : List GraphNode)
    (i j : Fin (sortNodesByZ l).length) (hij : (i : ℕ) ≤ (j : ℕ)) :
    ((sortNodesByZ l).get i).z ≤ ((sortNodesByZ l).get j).z ∧
    viewDepth 1 0 ((sortNodesByZ l).get i) ≤ viewDepth 1 0 ((sortNodesByZ l).get j) := by
  have hz : ((sortNodesByZ l).get i).z ≤ ((sortNodesByZ l).get j).z := by
    rcases Nat.lt_or_ge (i : ℕ) (j : ℕ) with hlt | hge
    · exact List.pairwise_iff_get.mp (pairwise_sortNodesByZ l) i j hlt
    · have heq : i = j := Fin.ext (le_antisymm hij hge)
      rw [heq]
  refine ⟨hz, ?_⟩
  simp only [viewDepth, mul_zero, mul_one, zero_add]
  linarith

/-- Witness for C1 amended on the concrete two-node frame. -/
theorem C1_draw_order_witness :
    ((⟨0, by decide⟩ : Fin (sortNodesByZ demoPair).length) : ℕ)
      ≤ ((⟨1, by decide⟩ : Fin (sortNodesByZ demoPair).length) : ℕ) ∧
    (((sortNodesByZ demoPair).get ⟨0, by decide⟩).z
        ≤ ((sortNodesByZ demoPair).get ⟨1, by decide⟩).z ∧
      viewDepth 1 0 ((sortNodesByZ demoPair).get ⟨0, by decide⟩)
        ≤ viewDepth 1 0 ((sortNodesByZ demoPair).get ⟨1, by decide⟩)) :=
  ⟨by decide,
    C1_draw_order_amended demoPair ⟨0, by decide⟩ ⟨1, by decide⟩ (by decide)⟩

/-- C6 counterexample: at camera angle 0 a node at `z = -3 = -d` makes the
perspective denominator `distance + z_rot` zero, so the draw step raises a
`ZeroDivisionError` (modelled by `none`) instead of totally excluding the
node from the draw set. -/
theorem C6_counterexample :
    drawStep 1 0 0 0 800 600 { id := 0, x := 0, y := 0, z := -3 } = none := by
  unfold drawStep project_node
  rw [if_pos (by norm_num)]

/-- C6 amended: with camera angle 0, `d = 3`, panel 800×600, the node at
`(1, 0, 0)` projects to `(600, 300)` with scale 1; a node strictly behind
the camera (`z < -d`, giving `scale < 0`) is excluded from the draw set
with no error; but a node at exactly `z = -d` raises a division-by-zero
error instead of being excluded — the draw step is not total there. -/
theorem C6_projection_amended (n : GraphNode) (px py w h : ℤ) (hz : n.z < -3) :
    project_node 1 0 { id := 0, x := 1, y := 0, z := 0 } 800 600 = some (600, 300, 1) ∧
    drawStep 1 0 px py w h n = some false ∧
    (∀ m : GraphNode, m.x = 0 → m.z = -3 → drawStep 1 0 px py w h m = none) := by
  refine ⟨?_, ?_, ?_⟩
  · unfold project_node
    rw [if_neg (by norm_num)]
    norm_num [pyInt]
  · have h1 : n.x * 0 + n.z * 1 = n.z := by ring
    have hne : ¬ (3 + (n.x * 0 + n.z * 1) = 0) := by
      rw [h1]; intro hc; linarith
    have hscale : 3 / (3 + (n.x * 0 + n.z * 1)) < 0 := by
      rw [h1]
      exact div_neg_of_pos_of_neg (by norm_num) (by linarith)
    unfold drawStep project_node
    rw [if_neg hne]
    exact if_pos (Or.inl hscale)
  · intro m hx hz3
    unfold drawStep project_node
    rw [if_pos (by rw [hx, hz3]; norm_num)]

/-- Witness for C6 amended: the node at `z = -4` is strictly behind. -/
theorem C6_projection_witness :
    ({ id := 0, x := 0, y := 0, z := -4 } : GraphNode).z < -3 ∧
    (project_node 1 0 { id := 0, x := 1, y := 0, z := 0 } 800 600 = some (600, 300, 1) ∧
      drawStep 1 0 0 0 800 600 { id := 0, x := 0, y := 0, z := -4 } = some false ∧
      (∀ m : GraphNode, m.x = 0 → m.z = -3 → drawStep 1 0 0 0 800 600 m = none)) :=
  ⟨by norm_num,
    C6_projection_amended { id := 0, x := 0, y := 0, z := -4 } 0 0 800 600 (by norm_num)⟩

/-- C5: failing geometry for the claim. With width 2, height 2, stride 12
(so `stride ≥ 4 * width` and the buffer has `stride * height = 24`
bytes, initially zero), after `clear((255, 255, 255))` the 4 bytes at
offset `y * stride + x * 4` for `(x, y) = (1, 1)`, i.e. offset 16, are
still 0 rather than `(255, 255, 255, 255)`: `clear` writes the pixels
consecutively and ignores the row stride. -/
theorem C5_clear_stride_failing :
    (List.replicate 24 0).length = 12 * 2 ∧ 4 * 2 ≤ 12 ∧
    (fb_clear 2 2 (255, 255, 255) (List.replicate 24 0)).getD (1 * 12 + 1 * 4) 0 = 0 ∧
    ¬ (fb_clear 2 2 (255, 255, 255) (List.replicate 24 0)).getD (1 * 12 + 1 * 4) 0 = 255 := by
  decide

/-- C4 counterexample: open the device as descriptor 3 with a live mmap;
the first `close()` succeeds, but a second `close()` on the resulting
state raises `ValueError` (the `if self.fb_mem:` truthiness check calls
`len()` on the now-closed mmap), so `close()` is not idempotent. -/
theorem C4_counterexample :
    fb_close ⟨[3]⟩ ⟨some 3, some true⟩
      = .ok (⟨[]⟩, ⟨some 3, some false⟩) ∧
    fb_close ⟨[]⟩ ⟨some 3, some false⟩ = .error .valueError := by
  constructor <;> rfl

/-- C4 amended: for any device successfully opened (descriptor `fd ≠ 0`
present in the OS table, mmap open), the first `close()` succeeds and
releases both resources, but since neither `fb_fd` nor `fb_mem` is reset,
an immediately repeated `close()` raises `ValueError` from the truthiness
check on the closed mmap: `close()` is not idempotent. -/
theorem C4_close_not_idempotent (s : OSState) (fd : ℤ) (hfd : fd ≠ 0)
    (hmem : fd ∈ s.openFds) :
    fb_close s ⟨some fd, some true⟩
      = .ok (⟨s.openFds.erase fd⟩, ⟨some fd, some false⟩) ∧
    (∀ s2 : OSState, fb_close s2 ⟨some fd, some false⟩ = .error .valueError) := by
  constructor
  · show fbCloseFd s ⟨some fd, some false⟩
      = .ok (⟨s.openFds.erase fd⟩, ⟨some fd, some false⟩)
    have hos : osClose s fd = .ok ⟨s.openFds.erase fd⟩ := by
      unfold osClose
      rw [if_pos hmem]
    show (if fd ≠ 0 then
        match osClose s fd with
        | Except.error e => Except.error e
        | Except.ok s1 => Except.ok (s1, ({ fb_fd := some fd, fb_mem := some false } : FBHandle))
      else Except.ok (s, ({ fb_fd := some fd, fb_mem := some false } : FBHandle)))
      = Except.ok (⟨s.openFds.erase fd⟩, ⟨some fd, some false⟩)
    rw [if_pos hfd, hos]
  · intro s2
    rfl

/-- Witness for C4 amended at descriptor 3 with only itself open. -/
theorem C4_close_not_idempotent_witness :
    ((3 : ℤ) ≠ 0 ∧ (3 : ℤ) ∈ (⟨[3]⟩ : OSState).openFds) ∧
    (fb_close ⟨[3]⟩ ⟨some 3, some true⟩
        = .ok (⟨(⟨[3]⟩ : OSState).openFds.erase 3⟩, ⟨some 3, some false⟩)
      ∧ (∀ s2 : OSState, fb_close s2 ⟨some 3, some false⟩ = .error .valueError)) :=
  ⟨⟨by decide, by decide⟩,
    C4_close_not_idempotent ⟨[3]⟩ 3 (by decide) (by decide)⟩

/-- C3 counterexample: when the device open fails, the program prints the
diagnostic and renders no frame, but the process exit status is 0, not
nonzero: `run()` simply returns and `main()` returns normally (there is
no `sys.exit`). -/
theorem C3_counterexample :
    (.printDiag ∈ (runMain false 0).1 ∧ .renderFrame ∉ (runMain false 0).1) ∧
    ¬ (runMain false 0).2 ≠ 0 := by
  decide

/-- C3 amended: on device open failure the program prints a diagnostic
and terminates before any frame is rendered, but with exit status 0 (not
nonzero); on a clean keyboard interrupt the exit status is 0 and the
device is closed. -/
theorem C3_exit_status_amended (frames : ℕ) :
    (runMain false frames).1 = [.printDiag] ∧
    .renderFrame ∉ (runMain false frames).1 ∧
    (runMain false frames).2 = 0 ∧
    (runMain true frames).2 = 0 ∧
    .closeDevice ∈ (runMain true frames).1 := by
  refine ⟨rfl, by simp [runMain], rfl, rfl, ?_⟩
  simp [runMain]

theorem mem_enqueueLines {a : WorkerAction} {lines : List (Option WireEvent)}
    (ha : a ∈ enqueueLines lines) : ∃ e, a = .enqueue e := by
  unfold enqueueLines at ha
  rcases List.mem_filterMap.mp ha with ⟨o, _, ho⟩
  cases o with
  | none => simp at ho
  | some e => exact ⟨e, by simpa using ho.symm⟩

theorem mem_socketLoop {a : WorkerAction} {rs : List RecvResult}
    (ha : a ∈ socketLoop rs) :
    a = .closeSocket ∨ a = .sleepRetry ∨ ∃ e, a = .enqueue e := by
  induction rs with
  | nil =>
    simp only [socketLoop, List.mem_singleton] at ha
    exact Or.inl ha
  | cons r rest ih =>
    cases r with
    | ok lines =>
      simp only [socketLoop, List.mem_append] at ha
      rcases ha with ha | ha
      · exact Or.inr (Or.inr (mem_enqueueLines ha))
      · exact ih ha
    | closed =>
      simp only [socketLoop, List.mem_singleton] at ha
      exact Or.inl ha
    | fail =>
      simp only [socketLoop, List.mem_cons] at ha
      rcases ha with rfl | ha
      · exact Or.inr (Or.inl rfl)
      · exact ih ha

theorem connectAttempt_not_mem_socketLoop (rs : List RecvResult) :
    WorkerAction.connectAttempt ∉ socketLoop rs := by
  intro h
  rcases mem_socketLoop h with h1 | h1 | ⟨e, h1⟩ <;> simp at h1

theorem fallback_not_mem_socketLoop (rs : List RecvResult) :
    WorkerAction.fallbackToDemo ∉ socketLoop rs := by
  intro h
  rcases mem_socketLoop h with h1 | h1 | ⟨e, h1⟩ <;> simp at h1

theorem mem_demoIter {a : WorkerAction} {c : DemoChoice} (ha : a ∈ demoIter c) :
    a = .sleepDemo ∨ ∃ e, a = .enqueue e := by
  unfold demoIter at ha
  by_cases h : c.emitMetric <;>
    simp only [h, if_true, if_false, List.mem_cons, List.mem_singleton,
      List.not_mem_nil, or_false] at ha <;>
    tauto

theorem mem_run_demo_mode {a : WorkerAction} {demo : List DemoChoice}
    (ha : a ∈ run_demo_mode demo) :
    a = .sleepDemo ∨ ∃ e, a = .enqueue e := by
  induction demo with
  | nil => simp [run_demo_mode] at ha
  | cons c cs ih =>
    simp only [run_demo_mode, List.mem_append] at ha
    rcases ha with ha | ha
    · exact mem_demoIter ha
    · exact ih ha

theorem connectAttempt_not_mem_run_demo_mode (demo : List DemoChoice) :
    WorkerAction.connectAttempt ∉ run_demo_mode demo := by
  intro h
  rcases mem_run_demo_mode h with h1 | ⟨e, h1⟩ <;> simp at h1

theorem fallback_not_mem_run_demo_mode (demo : List DemoChoice) :
    WorkerAction.fallbackToDemo ∉ run_demo_mode demo := by
  intro h
  rcases mem_run_demo_mode h with h1 | ⟨e, h1⟩ <;> simp at h1

/-- C8: when the single initial connection attempt fails, the worker's
whole-life trace contains exactly one connection attempt and exactly one
fallback to the synthetic generator, and no iteration of the synthetic
generator ever attempts the real endpoint again. -/
theorem C8_permanent_fallback (reads : List RecvResult) (demo : List DemoChoice) :
    (connect_to_socket false reads demo).count .connectAttempt = 1 ∧
    (connect_to_socket false reads demo).count .fallbackToDemo = 1 ∧
    WorkerAction.connectAttempt ∉ run_demo_mode demo := by
  have hC := connectAttempt_not_mem_run_demo_mode demo
  have hF := fallback_not_mem_run_demo_mode demo
  refine ⟨?_, ?_, hC⟩
  · show (WorkerAction.connectAttempt :: .fallbackToDemo :: run_demo_mode demo).count
      .connectAttempt = 1
    rw [List.count_cons_self,
      List.count_eq_zero.mpr (by
        intro h
        rcases List.mem_cons.mp h with h1 | h1
        · simp at h1
        · exact hC h1)]
  · show (WorkerAction.connectAttempt :: .fallbackToDemo :: run_demo_mode demo).count
      .fallbackToDemo = 1
    rw [List.count_cons_of_ne (by simp), List.count_cons_self,
      List.count_eq_zero.mpr hF]

theorem socketLoop_eof (pre rest : List RecvResult)
    (h : RecvResult.closed ∉ pre) :
    socketLoop (pre ++ .closed :: rest) = readActions pre ++ [.closeSocket] := by
  induction pre with
  | nil => rfl
  | cons r pr ih =>
    have hr : r ≠ .closed := fun hc => h (by rw [hc]; exact List.mem_cons_self _ _)
    have hpr : RecvResult.closed ∉ pr := fun hc => h (List.mem_cons_of_mem r hc)
    cases r with
    | ok lines =>
      simp only [List.cons_append, socketLoop, readActions, List.append_eq,
        ih hpr, List.append_assoc]
    | closed => exact absurd rfl hr
    | fail =>
      simp only [List.cons_append, socketLoop, readActions, List.append_eq, ih hpr]

/-- C9: if, after a successful connection, a read returns zero bytes,
the worker's trace is exactly the initial connection attempt, the
enqueues and backoff sleeps of the preceding reads, and a socket close;
anything that would have followed (`rest`) is never consumed, no fallback
to the synthetic generator occurs, and no second connection attempt is
made — after the close, nothing further is ever enqueued. -/
theorem C9_eof_terminates (pre rest : List RecvResult) (demo : List DemoChoice)
    (h : RecvResult.closed ∉ pre) :
    connect_to_socket true (pre ++ .closed :: rest) demo
      = .connectAttempt :: (readActions pre ++ [.closeSocket]) ∧
    WorkerAction.fallbackToDemo ∉ connect_to_socket true (pre ++ .closed :: rest) demo ∧
    (connect_to_socket true (pre ++ .closed :: rest) demo).count .connectAttempt = 1 := by
  refine ⟨?_, ?_, ?_⟩
  · show WorkerAction.connectAttempt :: socketLoop (pre ++ .closed :: rest)
      = .connectAttempt :: (readActions pre ++ [.closeSocket])
    rw [socketLoop_eof pre rest h]
  · intro hmem
    rcases List.mem_cons.mp hmem with h1 | h1
    · simp at h1
    · exact fallback_not_mem_socketLoop _ h1
  · show (WorkerAction.connectAttempt :: socketLoop (pre ++ .closed :: rest)).count
      .connectAttempt = 1
    rw [List.count_cons_self,
      List.count_eq_zero.mpr (connectAttempt_not_mem_socketLoop _)]

/-- Witness for C9: one good read (one decoded event, one malformed
line), one failed read, then end-of-stream, with further reads pending
that are never consumed. -/
theorem C9_eof_terminates_witness :
    RecvResult.closed ∉
      ([.ok [some (.graphUpdate 3 1), none], .fail] : List RecvResult) ∧
    (connect_to_socket true
        (([.ok [some (.graphUpdate 3 1), none], .fail] : List RecvResult)
          ++ .closed :: [.fail]) []
        = .connectAttempt ::
          (readActions [.ok [some (.graphUpdate 3 1), none], .fail] ++ [.closeSocket]) ∧
      WorkerAction.fallbackToDemo ∉
        connect_to_socket true
          (([.ok [some (.graphUpdate 3 1), none], .fail] : List RecvResult)
            ++ .closed :: [.fail]) [] ∧
      (connect_to_socket true
          (([.ok [some (.graphUpdate 3 1), none], .fail] : List RecvResult)
            ++ .closed :: [.fail]) []).count .connectAttempt = 1) :=
  ⟨by decide,
    C9_eof_terminates [.ok [some (.graphUpdate 3 1), none], .fail] [.fail] [] (by decide)⟩

/-- C10: processing a metric event replaces the whole snapshot using only
the `cpu`, `tick_rate`, `active_nodes`, `total_edges`, `mean_error` and
`status` fields of the event — the result is independent of the previous
snapshot and of the event's `gpu` and `ram` fields — and the resulting
`gpu_usage` and `ram_usage` are always 0. -/
theorem C10_metric_replacement (old old2 : SystemMetrics) (e e2 : MetricEvent)
    (h1 : e.cpu = e2.cpu) (h2 : e.tick_rate = e2.tick_rate)
    (h3 : e.active_nodes = e2.active_nodes) (h4 : e.total_edges = e2.total_edges)
    (h5 : e.mean_error = e2.mean_error) (h6 : e.status = e2.status) :
    (process_metric_event old e).gpu_usage = 0 ∧
    (process_metric_event old e).ram_usage = 0 ∧
    process_metric_event old e = process_metric_event old2 e2 := by
  refine ⟨rfl, rfl, ?_⟩
  unfold process_metric_event
  rw [h1, h2, h3, h4, h5, h6]

/-- Witness for C10: two events agreeing on the six read fields but
differing in `gpu` and `ram`, applied over two different previous
snapshots, yield the same snapshot with `gpu_usage = ram_usage = 0`. -/
theorem C10_metric_replacement_witness :
    (({ cpu := some 55, gpu := some 90, ram := some 70 } : MetricEvent).cpu
        = ({ cpu := some 55, ram := some 10 } : MetricEvent).cpu ∧
      ({ cpu := some 55, gpu := some 90, ram := some 70 } : MetricEvent).tick_rate
        = ({ cpu := some 55, ram := some 10 } : MetricEvent).tick_rate ∧
      ({ cpu := some 55, gpu := some 90, ram := some 70 } : MetricEvent).active_nodes
        = ({ cpu := some 55, ram := some 10 } : MetricEvent).active_nodes ∧
      ({ cpu := some 55, gpu := some 90, ram := some 70 } : MetricEvent).total_edges
        = ({ cpu := some 55, ram := some 10 } : MetricEvent).total_edges ∧
      ({ cpu := some 55, gpu := some 90, ram := some 70 } : MetricEvent).mean_error
        = ({ cpu := some 55, ram := some 10 } : MetricEvent).mean_error ∧
      ({ cpu := some 55, gpu := some 90, ram := some 70 } : MetricEvent).status
        = ({ cpu := some 55, ram := some 10 } : MetricEvent).status) ∧
    ((process_metric_event {} { cpu := some 55, gpu := some 90, ram := some 70 }).gpu_usage = 0 ∧
      (process_metric_event {} { cpu := some 55, gpu := some 90, ram := some 70 }).ram_usage = 0 ∧
      process_metric_event {} { cpu := some 55, gpu := some 90, ram := some 70 }
        = process_metric_event { status := "ACTIVE" } { cpu := some 55, ram := some 10 }) :=
  ⟨⟨rfl, rfl, rfl, rfl, rfl, rfl⟩,
    C10_metric_replacement {} { status := "ACTIVE" }
      { cpu := some 55, gpu := some 90, ram := some 70 }
      { cpu := some 55, ram := some 10 } rfl rfl rfl rfl rfl rfl⟩

end Melvin
